import Mathlib

/-!
Verification of the outbox-abstraction core (Go package `abstraction`).

The development shallowly embeds the package's data model and operations:

* `OutboxEventStatus` with its `String`, `MarshalJSON` and `UnmarshalJSON`
  methods (`event.go`);
* the event record `OutboxEvent` and factory `CreateNewEvent` (`event.go`);
* the registry `outboxEventManagerImpl` with `NewOutboxEventManager`,
  `RegisterEventChannel` and `GetChannel` (`event_manager.go`).

Go's standard-library JSON string codec (`encoding/json`) and the
`github.com/google/uuid` generator are external to the repository; they are
modelled explicitly below, each with a doc comment stating the modelling
decisions.
-/

namespace OutboxAbstraction

/-! JSON string codec, modelled from Go `encoding/json`.

`json.Marshal` on a `string` emits a quoted string, escaping the quote,
backslash, newline, carriage return and tab characters, every other control
character, the HTML-sensitive characters and the line/paragraph separators
as `\uXXXX`.  `json.Unmarshal` into a `string` accepts a (possibly
whitespace-surrounded) JSON string token, decoding its escapes, and also
the JSON `null` literal, which it ignores, leaving the target string at its
prior value; a lone surrogate escape decodes to the replacement character.
Surrogate-pair recombination is not modelled (no claim exercises it). -/

def hexDigitChar (n : Nat) : Char :=
  if n < 10 then Char.ofNat (n + 48) else Char.ofNat (n - 10 + 97)

def toHex4 (n : Nat) : List Char :=
  [hexDigitChar (n / 4096 % 16), hexDigitChar (n / 256 % 16),
   hexDigitChar (n / 16 % 16), hexDigitChar (n % 16)]

def jsonEscapeChar (c : Char) : List Char :=
  if c = '"' then ['\\', '"']
  else if c = '\\' then ['\\', '\\']
  else if c = '\n' then ['\\', 'n']
  else if c = '\r' then ['\\', 'r']
  else if c = '\t' then ['\\', 't']
  else if c = '<' || c = '>' || c = '&' then '\\' :: 'u' :: toHex4 c.toNat
  else if c.toNat < 32 then '\\' :: 'u' :: toHex4 c.toNat
  else if c.toNat = 8232 || c.toNat = 8233 then '\\' :: 'u' :: toHex4 c.toNat
  else [c]

def jsonEncodeString (s : String) : String :=
  String.mk ('"' :: (s.data.map jsonEscapeChar).flatten ++ ['"'])

def hexVal (c : Char) : Option Nat :=
  if 48 ≤ c.toNat && c.toNat ≤ 57 then some (c.toNat - 48)
  else if 97 ≤ c.toNat && c.toNat ≤ 102 then some (c.toNat - 97 + 10)
  else if 65 ≤ c.toNat && c.toNat ≤ 70 then some (c.toNat - 65 + 10)
  else none

def unescapeChar (c : Char) : Option Char :=
  if c = '"' then some '"'
  else if c = '\\' then some '\\'
  else if c = '/' then some '/'
  else if c = 'b' then some (Char.ofNat 8)
  else if c = 'f' then some (Char.ofNat 12)
  else if c = 'n' then some '\n'
  else if c = 'r' then some '\r'
  else if c = 't' then some '\t'
  else none

/-- Parse the body of a JSON string after the opening quote.  Returns the
decoded characters together with the input remaining after the closing
quote, or `none` on malformed input (unterminated string, bad escape,
unescaped control character). -/
def parseStringBody : List Char → Option (List Char × List Char)
  | [] => none
  | c :: cs =>
    if c = '"' then some ([], cs)
    else if c = '\\' then
      match cs with
      | [] => none
      | e :: cs1 =>
        match unescapeChar e with
        | some d =>
          match parseStringBody cs1 with
          | some (s, r) => some (d :: s, r)
          | none => none
        | none =>
          if e = 'u' then
            match cs1 with
            | h1 :: h2 :: h3 :: h4 :: cs2 =>
              match hexVal h1, hexVal h2, hexVal h3, hexVal h4 with
              | some a, some b, some c2, some d2 =>
                let n := ((a * 16 + b) * 16 + c2) * 16 + d2
                let ch := if 55296 ≤ n && n < 57344 then Char.ofNat 65533 else Char.ofNat n
                match parseStringBody cs2 with
                | some (s, r) => some (ch :: s, r)
                | none => none
              | _, _, _, _ => none
            | _ => none
          else none
    else if c.toNat < 32 then none
    else
      match parseStringBody cs with
      | some (s, r) => some (c :: s, r)
      | none => none

def isJsonWs (c : Char) : Bool :=
  c = ' ' || c = '\t' || c = '\n' || c = '\r'

def jsonDecodeStringChars (l : List Char) : Option (List Char) :=
  match l.dropWhile isJsonWs with
  | c :: rest =>
    if c = '"' then
      match parseStringBody rest with
      | some (s, r) => if r.all isJsonWs then some s else none
      | none => none
    else none
  | [] => none

/-- Parser for a JSON string token (with surrounding whitespace): `some`
with the decoded text when the input is a valid JSON-encoded string,
`none` otherwise.  The full semantics of `json.Unmarshal` into a `string`
is `jsonUnmarshalIntoString` below, which additionally accepts the JSON
`null` literal. -/
def jsonDecodeString (s : String) : Option String :=
  (jsonDecodeStringChars s.data).map String.mk

def emptyStr : String := ""

def jsonNullChars : List Char := ['n', 'u', 'l', 'l']

/-- Recognizer for the JSON `null` literal, surrounding whitespace
allowed. -/
def isJsonNull (s : String) : Bool :=
  (s.data.dropWhile isJsonWs).take 4 == jsonNullChars &&
    ((s.data.dropWhile isJsonWs).drop 4).all isJsonWs

/-- Go `json.Unmarshal(data, &s)` with a `string` target, given the prior
value `s0` of `s`: a JSON string decodes into `s`; the JSON `null` literal
succeeds as a no-op, leaving `s` at `s0` (Go's decoder ignores `null` for
string targets); any other input is a decode error (`none`). -/
def jsonUnmarshalIntoString (data : String) (s0 : String) : Option String :=
  if isJsonNull data then some s0
  else jsonDecodeString data

/-! Event status (`event.go`, `type OutboxEventStatus string`). -/

/-- Go: `type OutboxEventStatus string` — a named string type. -/
structure OutboxEventStatus where
  raw : String
deriving DecidableEq

def pendingStr : String := "pending"

def closedStr : String := "closed"

def failedStr : String := "failed"

/-- Go: `OutboxEventStatusPending OutboxEventStatus = "pending"`. -/
def OutboxEventStatusPending : OutboxEventStatus := ⟨pendingStr⟩

/-- Go: `OutboxEventStatusClosed OutboxEventStatus = "closed"`. -/
def OutboxEventStatusClosed : OutboxEventStatus := ⟨closedStr⟩

/-- Go: `OutboxEventStatusFailed OutboxEventStatus = "failed"`. -/
def OutboxEventStatusFailed : OutboxEventStatus := ⟨failedStr⟩

/-- Go: `func (e OutboxEventStatus) String() string { return string(e) }`. -/
def statusString (e : OutboxEventStatus) : String := e.raw

def decodeErrMsg : String := "json: cannot unmarshal value into string"

/-- Go: `func (n *OutboxEventStatus) UnmarshalJSON(data []byte) error`.
The method declares `var s string` (zero value, the empty string), calls
`json.Unmarshal(data, &s)`, and on success stores `s` verbatim into the
receiver; the only failure is the JSON decode error itself.  In
particular, decoding the JSON `null` literal succeeds and stores the
untouched zero value. -/
def UnmarshalJSON (data : String) : Except String OutboxEventStatus :=
  match jsonUnmarshalIntoString data emptyStr with
  | some s => Except.ok ⟨s⟩
  | none => Except.error decodeErrMsg

/-- Go: `func (n OutboxEventStatus) MarshalJSON() ([]byte, error)`, i.e.
`json.Marshal(n.String())`, which never fails on a string. -/
def MarshalJSON (n : OutboxEventStatus) : Except String String :=
  Except.ok (jsonEncodeString (statusString n))

/-! Event data model and factory (`event.go`). -/

/-- Go: the `OutboxEventType` interface (`GetName() string`, `GetID() int`),
represented by its observable behaviour: a name and a numeric id. -/
structure OutboxEventType where
  getName : String
  getID : Int
deriving DecidableEq

/-- Go: `type OutboxEvent struct`.  The payload is `interface{}`, hence a
type parameter; `CreatedAt` (`time.Time`) is an abstract clock reading. -/
structure OutboxEvent (Payload : Type) where
  eventID : String
  eventType : String
  eventStatus : String
  aggregateType : String
  aggregateID : String
  payload : Payload
  createdAt : Nat
deriving DecidableEq

/-- Modelled from the spec: `github.com/google/uuid` is external to this
repository; the spec assumes a freshly generated, collision-free
identifier, so the generator is modelled as an injective fresh-id supply
indexed by a counter. -/
def genUuid (n : Nat) : String :=
  String.mk (List.replicate (n + 1) 'u')

/-- The ambient effects `CreateNewEvent` uses: the uuid supply counter and
the wall clock (`time.Now`), threaded explicitly. -/
structure World where
  uuidCounter : Nat
  clock : Nat
deriving DecidableEq

/-- Modelled from the spec: `uuid.New().String()` — draws the next fresh
identifier and advances the supply. -/
def uuidNew (w : World) : String × World :=
  (genUuid w.uuidCounter, ⟨w.uuidCounter + 1, w.clock⟩)

/-- `time.Now()` as a reading of the abstract clock. -/
def timeNow (w : World) : Nat := w.clock

/-- Go: `func CreateNewEvent(eventType OutboxEventType, AggregateType,
AggregateID string, payload interface{}) OutboxEvent`.  The Go function has
no error return; effects (uuid draw, clock read) are threaded through
`World`. -/
def CreateNewEvent {Payload : Type} (w : World) (eventType : OutboxEventType)
    (AggregateType AggregateID : String) (payload : Payload) :
    OutboxEvent Payload × World :=
  let tm := timeNow w
  let idw := uuidNew w
  (⟨idw.1, eventType.getName, statusString OutboxEventStatusPending,
    AggregateType, AggregateID, payload, tm⟩, idw.2)

/-- Sequential event creation: run `CreateNewEvent` over a list of inputs,
threading the `World` state, and collect the events. -/
def createEventsFrom {Payload : Type} (w : World) :
    List (OutboxEventType × String × String × Payload) → List (OutboxEvent Payload)
  | [] => []
  | i :: rest =>
    let ew := CreateNewEvent w i.1 i.2.1 i.2.2.1 i.2.2.2
    ew.1 :: createEventsFrom ew.2 rest

/-! Event manager registry (`event_manager.go`). -/

/-- Go: `type outboxEventManagerImpl struct` with
`eventChannels map[OutboxEventType]OutboxEventChannel`.  The map is
modelled extensionally as a function into `Option`; the key and channel
types are parameters (channels are opaque interface values compared by
identity, keys by Go interface equality). -/
structure outboxEventManagerImpl (EventType Channel : Type) where
  eventChannels : EventType → Option Channel

/-- Go: `func NewOutboxEventManager() OutboxEventManager` — a fresh manager
with an empty channel map. -/
def NewOutboxEventManager (EventType Channel : Type) :
    outboxEventManagerImpl EventType Channel :=
  ⟨fun _ => none⟩

def dupRegistrationMsg : String := "event channel already registered for this event type"

def notFoundMsg : String := "outbox event channel not found"

/-- Go: `func (m *outboxEventManagerImpl) RegisterEventChannel(...) error`.
Returns the updated manager together with the error value (`none` for the
Go `nil` error). -/
def RegisterEventChannel {EventType Channel : Type} [DecidableEq EventType]
    (m : outboxEventManagerImpl EventType Channel)
    (eventType : EventType) (channel : Channel) :
    outboxEventManagerImpl EventType Channel × Option String :=
  match m.eventChannels eventType with
  | some _ => (m, some dupRegistrationMsg)
  | none =>
    (⟨fun k => if k = eventType then some channel else m.eventChannels k⟩, none)

/-- Go: `func (m *outboxEventManagerImpl) GetChannel(...)
(OutboxEventChannel, error)`.  Pure lookup: returns `(channel, nil)` when
bound and `(nil, error)` otherwise; the manager state is not touched, which
the embedding reflects by not returning a state at all. -/
def GetChannel {EventType Channel : Type}
    (m : outboxEventManagerImpl EventType Channel) (eventType : EventType) :
    Option Channel × Option String :=
  match m.eventChannels eventType with
  | some channel => (some channel, none)
  | none => (none, some notFoundMsg)

/-- The operations the core offers on a manager, for reasoning about
arbitrary operation sequences. -/
inductive ManagerOp (EventType Channel : Type) where
  | register : EventType → Channel → ManagerOp EventType Channel
  | get : EventType → ManagerOp EventType Channel

/-- State transition of one operation: `register` updates the manager via
`RegisterEventChannel`; `get` is a pure lookup and leaves it unchanged. -/
def applyOp {EventType Channel : Type} [DecidableEq EventType]
    (m : outboxEventManagerImpl EventType Channel) :
    ManagerOp EventType Channel → outboxEventManagerImpl EventType Channel
  | ManagerOp.register k ch => (RegisterEventChannel m k ch).1
  | ManagerOp.get _ => m

/-- Run a sequence of operations from a manager state. -/
def runOps {EventType Channel : Type} [DecidableEq EventType]
    (m : outboxEventManagerImpl EventType Channel)
    (ops : List (ManagerOp EventType Channel)) :
    outboxEventManagerImpl EventType Channel :=
  ops.foldl applyOp m

/-! Helper lemmas shared by the claim theorems. -/

/-- The modelled uuid supply never repeats an identifier. -/
theorem genUuid_injective : Function.Injective genUuid := by
  intro a b h
  simp only [genUuid] at h
  have h2 := congrArg (fun s : String => s.data.length) h
  simpa using h2

/-- The event ids produced by a run of `createEventsFrom` are exactly the
uuids drawn from the successive counter values. -/
theorem createEventsFrom_map_eventID {Payload : Type}
    (inps : List (OutboxEventType × String × String × Payload)) :
    ∀ w : World,
      (createEventsFrom w inps).map OutboxEvent.eventID =
        (List.range' w.uuidCounter inps.length).map genUuid := by
  induction inps with
  | nil => intro w; rfl
  | cons i rest ih =>
    intro w
    show genUuid w.uuidCounter ::
        (createEventsFrom ⟨w.uuidCounter + 1, w.clock⟩ rest).map OutboxEvent.eventID =
      genUuid w.uuidCounter ::
        (List.range' (w.uuidCounter + 1) rest.length).map genUuid
    exact congrArg (List.cons (genUuid w.uuidCounter)) (ih ⟨w.uuidCounter + 1, w.clock⟩)

/-- Any binding present in a manager survives any further run of core
operations: `GetChannel` never mutates, and `RegisterEventChannel` either
rejects a duplicate or adds a binding under a fresh key. -/
theorem runOps_preserves {EventType Channel : Type} [DecidableEq EventType]
    (ops : List (ManagerOp EventType Channel)) :
    ∀ (m : outboxEventManagerImpl EventType Channel) (k : EventType) (ch : Channel),
      m.eventChannels k = some ch → (runOps m ops).eventChannels k = some ch := by
  induction ops with
  | nil => intro m k ch h; exact h
  | cons op rest ih =>
    intro m k ch h
    have hstep : (applyOp m op).eventChannels k = some ch := by
      cases op with
      | get k2 => exact h
      | register k2 ch2 =>
        cases h2 : m.eventChannels k2 with
        | some c => simpa [applyOp, RegisterEventChannel, h2] using h
        | none =>
          by_cases hk : k = k2
          · subst hk; rw [h] at h2; cases h2
          · simpa [applyOp, RegisterEventChannel, h2, hk] using h
    exact ih (applyOp m op) k ch hstep

/-! Claim theorems. -/

def bogusStr : String := "bogus"

def bogusJson : String := "\"bogus\""

/-- C1 (counterexample): deserializing the JSON string `"bogus"`, which is
none of the three enumerants, does not fail — `UnmarshalJSON` succeeds and
stores the unrecognized text verbatim, contradicting the claim that every
textual input other than the three literals fails with a decode error. -/
theorem unmarshal_accepts_unknown_string :
    UnmarshalJSON bogusJson = Except.ok ⟨bogusStr⟩ ∧
    bogusStr ≠ pendingStr ∧ bogusStr ≠ closedStr ∧ bogusStr ≠ failedStr :=
  ⟨rfl, by decide, by decide, by decide⟩

/-- A JSON `null` literal is not a JSON string token, so the string parser
rejects exactly the inputs the `null` recognizer accepts. -/
theorem jsonDecodeString_eq_none_of_null {data : String}
    (h : isJsonNull data = true) : jsonDecodeString data = none := by
  unfold isJsonNull at h
  simp only [Bool.and_eq_true, beq_iff_eq] at h
  unfold jsonDecodeString jsonDecodeStringChars
  cases hd : data.data.dropWhile isJsonWs with
  | nil => simp
  | cons c rest =>
    rw [hd] at h
    have hc : c = 'n' := by
      have h1 := h.1
      rw [List.take_succ_cons, jsonNullChars] at h1
      exact (List.cons.injEq _ _ _ _ ▸ h1).1
    subst hc
    simp

def nullJson : String := "null"

/-- C1 (amended): deserialization accepts any valid JSON string — the three
enumerants included — storing the decoded text verbatim; it also accepts
the JSON `null` literal, which Go's decoder treats as a no-op so the status
receives the untouched zero value (the empty string); it fails with a
decode error exactly when the input is neither a valid JSON-encoded string
nor JSON `null`. -/
theorem unmarshal_verbatim (data : String) :
    (∀ s, jsonDecodeString data = some s → UnmarshalJSON data = Except.ok ⟨s⟩) ∧
    (isJsonNull data = true → UnmarshalJSON data = Except.ok ⟨emptyStr⟩) ∧
    (jsonDecodeString data = none → isJsonNull data = false →
      UnmarshalJSON data = Except.error decodeErrMsg) := by
  refine ⟨?_, ?_, ?_⟩
  · intro s h
    have hn : isJsonNull data = false := by
      cases hi : isJsonNull data with
      | false => rfl
      | true => rw [jsonDecodeString_eq_none_of_null hi] at h; cases h
    simp [UnmarshalJSON, jsonUnmarshalIntoString, hn, h]
  · intro hnull
    simp [UnmarshalJSON, jsonUnmarshalIntoString, hnull]
  · intro hdec hnull
    simp [UnmarshalJSON, jsonUnmarshalIntoString, hnull, hdec]

/-- Witness for `unmarshal_verbatim`: a concrete accepted string, the
accepted `null` no-op, and a concrete rejected input. -/
theorem unmarshal_verbatim_witness :
    UnmarshalJSON bogusJson = Except.ok ⟨bogusStr⟩ ∧
    UnmarshalJSON nullJson = Except.ok ⟨emptyStr⟩ ∧
    UnmarshalJSON bogusStr = Except.error decodeErrMsg :=
  ⟨(unmarshal_verbatim bogusJson).1 bogusStr rfl,
   (unmarshal_verbatim nullJson).2.1 rfl,
   (unmarshal_verbatim bogusStr).2.2 rfl rfl⟩

/-- C4: serializing each of the three valid enumerants with `MarshalJSON`
and deserializing the result with `UnmarshalJSON` yields the original
status value. -/
theorem status_roundtrip :
    (MarshalJSON OutboxEventStatusPending).bind UnmarshalJSON =
      Except.ok OutboxEventStatusPending ∧
    (MarshalJSON OutboxEventStatusClosed).bind UnmarshalJSON =
      Except.ok OutboxEventStatusClosed ∧
    (MarshalJSON OutboxEventStatusFailed).bind UnmarshalJSON =
      Except.ok OutboxEventStatusFailed :=
  ⟨rfl, rfl, rfl⟩

/-- C8 (counterexample): the JSON `null` literal is not a JSON-encoded
string, yet `UnmarshalJSON` succeeds on it — Go's decoder ignores `null`
for a string target, leaving the zero value — refuting the claim that an
error is returned exactly when the input is not a valid JSON string. -/
theorem unmarshal_null_succeeds :
    jsonDecodeString nullJson = none ∧
    UnmarshalJSON nullJson = Except.ok ⟨emptyStr⟩ :=
  ⟨rfl, rfl⟩

/-- C8 (amended): `UnmarshalJSON` fails exactly on inputs that are neither
valid JSON-encoded strings nor the JSON `null` literal; on every JSON
string input it succeeds and stores the decoded string verbatim, and on
`null` it succeeds with the status left at its zero value. -/
theorem unmarshal_error_cases (data : String) :
    (∃ s, jsonDecodeString data = some s ∧ UnmarshalJSON data = Except.ok ⟨s⟩) ∨
    (isJsonNull data = true ∧ UnmarshalJSON data = Except.ok ⟨emptyStr⟩) ∨
    (jsonDecodeString data = none ∧ isJsonNull data = false ∧
      UnmarshalJSON data = Except.error decodeErrMsg) := by
  cases hn : isJsonNull data with
  | true =>
    exact Or.inr (Or.inl ⟨rfl, by simp [UnmarshalJSON, jsonUnmarshalIntoString, hn]⟩)
  | false =>
    cases h : jsonDecodeString data with
    | some s =>
      exact Or.inl ⟨s, rfl, by simp [UnmarshalJSON, jsonUnmarshalIntoString, hn, h]⟩
    | none =>
      exact Or.inr (Or.inr ⟨rfl, rfl, by simp [UnmarshalJSON, jsonUnmarshalIntoString, hn, h]⟩)

/-- C9: `MarshalJSON` is total — it returns `ok` on every status value,
producing the JSON string encoding of the status's raw string, which is
exactly what `String()` renders. -/
theorem marshal_total (n : OutboxEventStatus) :
    MarshalJSON n = Except.ok (jsonEncodeString (statusString n)) ∧
    statusString n = n.raw :=
  ⟨rfl, rfl⟩

/-- C2: registering under an already-bound key returns the
duplicate-registration error with the manager unchanged, and a subsequent
`GetChannel` on that key still returns the originally bound channel. -/
theorem register_duplicate_preserves {EventType Channel : Type} [DecidableEq EventType]
    (m : outboxEventManagerImpl EventType Channel) (k : EventType) (ch0 ch : Channel)
    (h : m.eventChannels k = some ch0) :
    RegisterEventChannel m k ch = (m, some dupRegistrationMsg) ∧
    GetChannel (RegisterEventChannel m k ch).1 k = (some ch0, none) := by
  have h1 : RegisterEventChannel m k ch = (m, some dupRegistrationMsg) := by
    simp [RegisterEventChannel, h]
  refine ⟨h1, ?_⟩
  rw [h1]
  simp [GetChannel, h]

def mgrOne : outboxEventManagerImpl Nat Nat :=
  ⟨fun k => if k = 1 then some 7 else none⟩

/-- Witness for `register_duplicate_preserves` at a concrete manager with
key 1 bound to channel 7. -/
theorem register_duplicate_witness :
    RegisterEventChannel mgrOne 1 9 = (mgrOne, some dupRegistrationMsg) ∧
    GetChannel (RegisterEventChannel mgrOne 1 9).1 1 = (some 7, none) :=
  register_duplicate_preserves mgrOne 1 7 9 rfl

/-- C3: `CreateNewEvent` always succeeds (it has no error path, as its
return type shows) and yields an event whose status is the literal
`pending`, whose type is the name taken from the Event Type, whose id is
the freshly drawn uuid, and whose creation time is the clock reading at
construction; sequentially constructed events all carry distinct ids. -/
theorem createNewEvent_spec {Payload : Type} (w : World) (et : OutboxEventType)
    (aty aid : String) (p : Payload)
    (inps : List (OutboxEventType × String × String × Payload)) :
    (CreateNewEvent w et aty aid p).1.eventStatus = pendingStr ∧
    (CreateNewEvent w et aty aid p).1.eventType = et.getName ∧
    (CreateNewEvent w et aty aid p).1.eventID = genUuid w.uuidCounter ∧
    (CreateNewEvent w et aty aid p).1.createdAt = timeNow w ∧
    ((createEventsFrom w inps).map OutboxEvent.eventID).Nodup := by
  refine ⟨rfl, rfl, rfl, rfl, ?_⟩
  rw [createEventsFrom_map_eventID inps w]
  exact List.Nodup.map genUuid_injective (List.nodup_range' w.uuidCounter inps.length)

/-- C5: `GetChannel` returns the bound channel when a binding exists —
in particular a register-then-get on the same key returns the registered
channel — and on an unbound key returns no channel (`none`, Go `nil`)
together with the not-found error.  The embedding of `GetChannel` returns
no manager state at all, reflecting that the Go lookup never mutates the
registry. -/
theorem getChannel_spec {EventType Channel : Type} [DecidableEq EventType]
    (m : outboxEventManagerImpl EventType Channel) (k : EventType) :
    (∀ ch, m.eventChannels k = some ch → GetChannel m k = (some ch, none)) ∧
    (m.eventChannels k = none → GetChannel m k = (none, some notFoundMsg)) ∧
    (∀ ch m2, RegisterEventChannel m k ch = (m2, none) →
      GetChannel m2 k = (some ch, none)) := by
  refine ⟨?_, ?_, ?_⟩
  · intro ch h; simp [GetChannel, h]
  · intro h; simp [GetChannel, h]
  · intro ch m2 hreg
    cases h : m.eventChannels k with
    | some c => simp [RegisterEventChannel, h] at hreg
    | none =>
      have h2 : RegisterEventChannel m k ch =
          (⟨fun k2 => if k2 = k then some ch else m.eventChannels k2⟩, none) := by
        simp [RegisterEventChannel, h]
      have hm2 : (⟨fun k2 => if k2 = k then some ch else m.eventChannels k2⟩ :
          outboxEventManagerImpl EventType Channel) = m2 :=
        congrArg Prod.fst (h2.symm.trans hreg)
      rw [← hm2]
      simp [GetChannel]

def mgrReg : outboxEventManagerImpl Nat Nat :=
  (RegisterEventChannel (NewOutboxEventManager Nat Nat) 1 7).1

/-- Witness for `getChannel_spec`: lookup of a bound key, lookup of an
unbound key, and register-then-get, all at concrete inputs. -/
theorem getChannel_spec_witness :
    GetChannel mgrOne 1 = (some 7, none) ∧
    GetChannel mgrOne 2 = (none, some notFoundMsg) ∧
    GetChannel mgrReg 1 = (some 7, none) :=
  ⟨(getChannel_spec mgrOne 1).1 7 rfl,
   (getChannel_spec mgrOne 2).2.1 rfl,
   (getChannel_spec (NewOutboxEventManager Nat Nat) 1).2.2 7 mgrReg rfl⟩

/-- C6: starting from a fresh manager, the binding set grows monotonically —
once a key is bound, no later sequence of core operations removes or
replaces the binding, and every later `GetChannel` on that key returns the
same channel. -/
theorem bindings_monotonic {EventType Channel : Type} [DecidableEq EventType]
    (ops0 ops : List (ManagerOp EventType Channel)) (k : EventType) (ch : Channel)
    (h : (runOps (NewOutboxEventManager EventType Channel) ops0).eventChannels k = some ch) :
    (runOps (runOps (NewOutboxEventManager EventType Channel) ops0) ops).eventChannels k
      = some ch ∧
    GetChannel (runOps (runOps (NewOutboxEventManager EventType Channel) ops0) ops) k
      = (some ch, none) := by
  have h2 := runOps_preserves ops (runOps (NewOutboxEventManager EventType Channel) ops0) k ch h
  exact ⟨h2, by simp [GetChannel, h2]⟩

def opsA : List (ManagerOp Nat Nat) := [ManagerOp.register 1 7]

def opsB : List (ManagerOp Nat Nat) :=
  [ManagerOp.register 1 9, ManagerOp.get 1, ManagerOp.register 2 5]

/-- Witness for `bindings_monotonic`: key 1 is bound to 7, then a duplicate
registration, a lookup and an unrelated registration run; key 1 still
resolves to 7. -/
theorem bindings_monotonic_witness :
    (runOps (runOps (NewOutboxEventManager Nat Nat) opsA) opsB).eventChannels 1 = some 7 ∧
    GetChannel (runOps (runOps (NewOutboxEventManager Nat Nat) opsA) opsB) 1 = (some 7, none) :=
  bindings_monotonic opsA opsB 1 7 rfl

def userCreatedStr : String := "UserCreated"

def userStr : String := "User"

def userIdStr : String := "user-123"

def emptyNameType : OutboxEventType := ⟨emptyStr, 1⟩

def w0 : World := ⟨0, 0⟩

/-- C7 (counterexample): `CreateNewEvent` copies the Event Type's name
verbatim, so an Event Type whose name accessor yields the empty string
produces an event with an empty `event_type`, contradicting the claimed
non-emptiness invariant. -/
theorem event_type_can_be_empty :
    (CreateNewEvent w0 emptyNameType userStr userIdStr 0).1.eventType = emptyStr ∧
    emptyNameType.getName = emptyStr :=
  ⟨rfl, rfl⟩

/-- C7 (amended): the constructed event's `event_type` is exactly the name
obtained from the Event Type, hence non-empty whenever that name is
non-empty; the factory performs no validation of its own. -/
theorem event_type_nonempty_of_name {Payload : Type} (w : World)
    (et : OutboxEventType) (aty aid : String) (p : Payload)
    (h : et.getName ≠ emptyStr) :
    (CreateNewEvent w et aty aid p).1.eventType = et.getName ∧
    (CreateNewEvent w et aty aid p).1.eventType ≠ emptyStr :=
  ⟨rfl, h⟩

def userCreatedType : OutboxEventType := ⟨userCreatedStr, 1⟩

/-- Witness for `event_type_nonempty_of_name` at the concrete event type
named `UserCreated`. -/
theorem event_type_nonempty_witness :
    (CreateNewEvent w0 userCreatedType userStr userIdStr 0).1.eventType
      = userCreatedType.getName ∧
    (CreateNewEvent w0 userCreatedType userStr userIdStr 0).1.eventType ≠ emptyStr :=
  event_type_nonempty_of_name w0 userCreatedType userStr userIdStr 0 (by decide)

/-- C10: `RegisterEventChannel` changes at most one binding and is atomic
on failure — an erroring call leaves the manager exactly as it was, and a
successful call adds the one new binding while every other key's binding is
unchanged. -/
theorem register_frame {EventType Channel : Type} [DecidableEq EventType]
    (m : outboxEventManagerImpl EventType Channel) (k : EventType) (ch : Channel) :
    ((RegisterEventChannel m k ch).2.isSome = true →
      (RegisterEventChannel m k ch).1 = m) ∧
    ((RegisterEventChannel m k ch).2 = none →
      (RegisterEventChannel m k ch).1.eventChannels k = some ch ∧
      ∀ k2, k2 ≠ k →
        (RegisterEventChannel m k ch).1.eventChannels k2 = m.eventChannels k2) := by
  cases h : m.eventChannels k with
  | some c =>
    refine ⟨fun _ => by simp [RegisterEventChannel, h], fun habs => ?_⟩
    simp [RegisterEventChannel, h] at habs
  | none =>
    refine ⟨fun habs => ?_, fun _ => ⟨?_, ?_⟩⟩
    · simp [RegisterEventChannel, h] at habs
    · simp [RegisterEventChannel, h]
    · intro k2 hk2; simp [RegisterEventChannel, h, hk2]

/-- Witness for `register_frame`: failure on the occupied key leaves the
concrete manager intact; success on a fresh manager adds exactly the one
binding and leaves another key unbound. -/
theorem register_frame_witness :
    (RegisterEventChannel mgrOne 1 9).1 = mgrOne ∧
    (RegisterEventChannel (NewOutboxEventManager Nat Nat) 1 7).1.eventChannels 1 = some 7 ∧
    (RegisterEventChannel (NewOutboxEventManager Nat Nat) 1 7).1.eventChannels 2
      = (NewOutboxEventManager Nat Nat).eventChannels 2 :=
  ⟨(register_frame mgrOne 1 9).1 rfl,
   ((register_frame (NewOutboxEventManager Nat Nat) 1 7).2 rfl).1,
   ((register_frame (NewOutboxEventManager Nat Nat) 1 7).2 rfl).2 2 (by decide)⟩

end OutboxAbstraction
